import Mathlib

/-
Verification of the governance-engine core (engine.py, mock_data.py) of the
spark-expectations demo repository.

Shallow embedding conventions:
* pandas DataFrames become `DataFrame` values: a frame-level column list plus
  an ordered list of rows; a row is an association list from column name to a
  scalar `Value`.  Row positions are list positions (the frames in this
  repository all carry the default RangeIndex, so pandas index labels and
  positions coincide).
* numeric scalars are modelled as exact rationals (ℚ); the demo data uses
  only decimal literals, and every claim about numbers is about order or
  exact equality, which decimal floats of this magnitude decide the same way
  as ℚ does.
* pandas operations that raise (KeyError on a missing column) are modelled
  with `Except String`; a Python exception is `.error`, a normal return is
  `.ok`.
-/

set_option maxHeartbeats 1000000

deriving instance DecidableEq for Except

namespace Gov

/-- Scalar cell values: numeric (exact rationals), string, or null
(pandas NaN / None). -/
inductive Value where
  | num (q : ℚ)
  | str (s : String)
  | null
deriving DecidableEq, Repr

/-- A row: association list from column name to value. -/
abbrev Row := List (String × Value)

/-- A named table: frame-level column list plus ordered rows (positions are
list positions). -/
structure DataFrame where
  cols : List String
  rows : List Row
deriving DecidableEq, Repr

/-- Cell access inside a row; a column missing from the association list is a
null cell (pandas NaN). -/
def Row.cell (r : Row) (c : String) : Value :=
  (r.lookup c).getD Value.null

/-- Column projection `df[c]`: KeyError when `c` is not a frame column,
otherwise the column as a list of values in row order. -/
def DataFrame.getCol (df : DataFrame) (c : String) : Except String (List Value) :=
  if c ∈ df.cols then .ok (df.rows.map (fun r => r.cell c)) else .error "KeyError"

/-- Positions (counting from `n`) of the elements satisfying `p`; this is the
`index.tolist()` of a boolean-mask selection. -/
def positionsFrom {α : Type} (p : α → Bool) : Nat → List α → List Nat
  | _, [] => []
  | i, a :: as => if p a then i :: positionsFrom p (i + 1) as else positionsFrom p (i + 1) as

/-- Positions (from 0) of the elements satisfying `p`. -/
def positionsWhere {α : Type} (p : α → Bool) (l : List α) : List Nat :=
  positionsFrom p 0 l

/-- Embeds `isnull()` on a scalar. -/
def Value.isNull : Value → Bool
  | .null => true
  | _ => false

/-- Strict `<` between scalars, as a pandas comparison: numeric against
numeric compares numerically; a null operand compares false (NaN semantics).
Ill-typed comparisons (string against number) are caller responsibility per
the spec and are modelled as false; no theorem below exercises them. -/
def Value.ltB : Value → Value → Bool
  | .num a, .num b => decide (a < b)
  | _, _ => false

/-- Strict `>` between scalars, same conventions as `Value.ltB`. -/
def Value.gtB : Value → Value → Bool
  | .num a, .num b => decide (b < a)
  | _, _ => false

/-- `<=` between scalars, same conventions as `Value.ltB`. -/
def Value.leB : Value → Value → Bool
  | .num a, .num b => decide (a ≤ b)
  | _, _ => false

/-- Embeds `astype(str)` on a scalar.  The exact text of a numeric value is
irrelevant to every claim (regex claims quantify over the produced string);
numbers are rendered as `num/den`, null as the pandas "nan". -/
def Value.toStr : Value → String
  | .num q => toString q.num ++ "/" ++ toString q.den
  | .str s => s
  | .null => "nan"

/-- Regular expressions, covering the constructs the rule files can use:
empty language, empty string, single character, concatenation, alternation,
Kleene star. -/
inductive Regex where
  | emptyset
  | eps
  | ch (c : Char)
  | cat (a b : Regex)
  | alt (a b : Regex)
  | star (a : Regex)
deriving DecidableEq, Repr

/-- Whether the regex accepts the empty string. -/
def Regex.nullable : Regex → Bool
  | .emptyset => false
  | .eps => true
  | .ch _ => false
  | .cat a b => a.nullable && b.nullable
  | .alt a b => a.nullable || b.nullable
  | .star _ => true

/-- Brzozowski derivative by one character. -/
def Regex.deriv : Regex → Char → Regex
  | .emptyset, _ => .emptyset
  | .eps, _ => .emptyset
  | .ch c, d => if c = d then .eps else .emptyset
  | .cat a b, d =>
      if a.nullable then .alt (.cat (a.deriv d) b) (b.deriv d) else .cat (a.deriv d) b
  | .alt a b, d => .alt (a.deriv d) (b.deriv d)
  | .star a, d => .cat (a.deriv d) (.star a)

/-- Whole-string acceptance via iterated derivatives. -/
def Regex.rmatch (r : Regex) (s : List Char) : Bool :=
  (s.foldl Regex.deriv r).nullable

/-- All prefixes of a string, shortest first. -/
def prefixesOf : List Char → List (List Char)
  | [] => [[]]
  | c :: cs => [] :: (prefixesOf cs).map (fun p => c :: p)

/-- Anchored `re.match` semantics (pandas `str.match`): the pattern matches some
prefix of the string, anchored at the start. -/
def Regex.matchStart (r : Regex) (s : List Char) : Bool :=
  (prefixesOf s).any (fun p => r.rmatch p)

/-- All suffixes of a string, longest first. -/
def suffixesOf : List Char → List (List Char)
  | [] => [[]]
  | c :: cs => (c :: cs) :: suffixesOf cs

/-- Unanchored `re.search` semantics (pandas `str.contains`): the pattern matches
somewhere inside the string. -/
def Regex.search (r : Regex) (s : List Char) : Bool :=
  (suffixesOf s).any (fun t => r.matchStart t)

/-! ### The Check Library (engine.py) -/

/-- Source `_check_not_null`: guarded against a missing column (returns no
violations); otherwise the positions of null cells. -/
def check_not_null (df : DataFrame) (column : String) : Except String (List Nat) :=
  if column ∈ df.cols then
    .ok (positionsWhere Value.isNull (df.rows.map (fun r => r.cell column)))
  else .ok []

/-- Source `_check_regex_match`: positions whose string form does NOT match the
pattern at the start.  Unguarded column access. -/
def check_regex_match (df : DataFrame) (column : String) (pat : Regex) :
    Except String (List Nat) :=
  (df.getCol column).map
    (positionsWhere (fun v => !(pat.matchStart (v.toStr.toList))))

/-- Source `_check_regex_not_match`: positions whose string form CONTAINS a match
anywhere (prohibited content).  Unguarded column access. -/
def check_regex_not_match (df : DataFrame) (column : String) (pat : Regex) :
    Except String (List Nat) :=
  (df.getCol column).map
    (positionsWhere (fun v => pat.search (v.toStr.toList)))

/-- Source `_check_range`: positions where value < min or value > max.  Unguarded
column access. -/
def check_range (df : DataFrame) (column : String) (min_val max_val : Value) :
    Except String (List Nat) :=
  (df.getCol column).map
    (positionsWhere (fun v => v.ltB min_val || v.gtB max_val))

/-- Source `_check_greater_than`: positions where value <= threshold.  Unguarded
column access. -/
def check_greater_than (df : DataFrame) (column : String) (value : Value) :
    Except String (List Nat) :=
  (df.getCol column).map (positionsWhere (fun v => v.leB value))

/-- Source `_check_set`: positions where the value is not in the allowed set.
Unguarded column access. -/
def check_set (df : DataFrame) (column : String) (value_set : List Value) :
    Except String (List Nat) :=
  (df.getCol column).map (positionsWhere (fun v => !(decide (v ∈ value_set))))

/-- The named datasets handed to the engine (`data_dict`). -/
abbrev Datasets := List (String × DataFrame)

/-- Embeds `groupby("sku").size()` looked up at one key: the number of transaction
rows carrying that key.  pandas groupby drops null keys, and a null inventory
key never joins (NaN ≠ NaN), so a null key gets 0 after `fillna(0)`. -/
def soldQty (pos_df : DataFrame) (key : Value) : ℚ :=
  if key = Value.null then 0
  else ((pos_df.rows.filter (fun t => t.cell "sku" = key)).length : ℚ)

/-- Cell access after the source's `fillna(0)` on the merged frame: null
becomes numeric 0. -/
def Row.cellFilled (r : Row) (c : String) : Value :=
  match r.cell c with
  | .null => .num 0
  | v => v

/-- Violation test of one inventory row: `end_count_realtime` differs from
`start_count_daily - sold_qty`.  Non-numeric (string) count cells would raise
in pandas arithmetic; they are modelled as a violation and excluded by the
hypotheses of every theorem below. -/
def invViolation (pos_df : DataFrame) (r : Row) : Bool :=
  match r.cellFilled "start_count_daily", r.cellFilled "end_count_realtime" with
  | .num s, .num e => decide (¬ (e = s - soldQty pos_df (r.cell "sku")))
  | _, _ => true

/-- Source `_check_inventory_calculation`: no `pos_transactions` dataset means no
violations; a required column missing from either frame is a KeyError from
`groupby` / `merge` / column access; otherwise the positions of inventory
rows whose end count mismatches start minus sold. -/
def check_inventory_calculation (dd : Datasets) (df : DataFrame) :
    Except String (List Nat) :=
  match dd.lookup "pos_transactions" with
  | none => .ok []
  | some pos_df =>
      if "sku" ∈ pos_df.cols ∧ "sku" ∈ df.cols ∧ "start_count_daily" ∈ df.cols ∧
          "end_count_realtime" ∈ df.cols then
        .ok (positionsWhere (invViolation pos_df) df.rows)
      else .error "KeyError"

/-- Source `_check_sentiment_correlation`: positions where the fixed column
`avg_sentiment` is strictly below -0.2.  Unguarded column access. -/
def check_sentiment_correlation (df : DataFrame) : Except String (List Nat) :=
  (df.getCol "avg_sentiment").map
    (positionsWhere (fun v => v.ltB (Value.num (-0.2))))

/-! ### The Validation Engine (engine.py, `run_validation`) -/

/-- The `kwargs` mapping of a rule; each kind reads only its own keys.
A key absent from the mapping is `none`: the source would pass Python `None`
into the check (an ill-typed comparison raising in pandas); the engine below
substitutes a null value / empty regex, which no theorem exercises. -/
structure Kwargs where
  min_value : Option Value := none
  max_value : Option Value := none
  regex : Option Regex := none
  value_set : List Value := []
  value : Option Value := none
deriving Repr

/-- A rule object of the registry. -/
structure Rule where
  id : String
  table : String
  column : Option String := none
  expectation_type : String
  kwargs : Kwargs := {}
  severity : String
  business_description : String
deriving Repr

/-- One result record appended by `run_validation`. -/
structure ValidationResult where
  rule_id : String
  table : String
  column : String
  description : String
  status : String
  failed_count : Nat
  severity : String
  failed_rows : List Nat
deriving DecidableEq, Repr

/-- The six expectation-kind tags with a routing branch in
`run_validation`. -/
def recognizedKinds : List String :=
  ["expect_column_values_to_be_between",
   "expect_column_values_to_not_match_regex",
   "expect_column_values_to_be_in_set",
   "expect_column_values_to_be_greater_than",
   "expect_inventory_calculation_match",
   "expect_sentiment_abandonment_correlation"]

/-- The routing chain of `run_validation`: pick the check for the rule's
`expectation_type`; an unrecognized tag leaves `failed_rows = []`. -/
def dispatchCheck (dd : Datasets) (df : DataFrame) (rule : Rule) :
    Except String (List Nat) :=
  let col := rule.column.getD ""
  let k := rule.kwargs
  if rule.expectation_type = "expect_column_values_to_be_between" then
    check_range df col (k.min_value.getD .null) (k.max_value.getD .null)
  else if rule.expectation_type = "expect_column_values_to_not_match_regex" then
    check_regex_not_match df col (k.regex.getD .emptyset)
  else if rule.expectation_type = "expect_column_values_to_be_in_set" then
    check_set df col k.value_set
  else if rule.expectation_type = "expect_column_values_to_be_greater_than" then
    check_greater_than df col (k.value.getD .null)
  else if rule.expectation_type = "expect_inventory_calculation_match" then
    check_inventory_calculation dd df
  else if rule.expectation_type = "expect_sentiment_abandonment_correlation" then
    check_sentiment_correlation df
  else
    .ok []

/-- Result assembly for one resolved rule: run the routed check and build the
result record.  `column` falls back to the "Multi-Column" sentinel when the
rule has no (or an empty, Python-falsy) column. -/
def evalRule (dd : Datasets) (df : DataFrame) (rule : Rule) :
    Except String ValidationResult :=
  match dispatchCheck dd df rule with
  | .error e => .error e
  | .ok rows_failed =>
      .ok { rule_id := rule.id
            table := rule.table
            column := match rule.column with
              | some c => if c = "" then "Multi-Column" else c
              | none => "Multi-Column"
            description := rule.business_description
            status := if rows_failed.length = 0 then "PASS" else "FAIL"
            failed_count := rows_failed.length
            severity := rule.severity
            failed_rows := rows_failed }

/-- Source `run_validation`: walk the registry in order, skip rules whose table
resolves to no dataset, evaluate the rest; a check that raises aborts the
whole run (the Python exception propagates). -/
def run_validation (dd : Datasets) : List Rule → Except String (List ValidationResult)
  | [] => .ok []
  | rule :: rest =>
      match dd.lookup rule.table with
      | none => run_validation dd rest
      | some df =>
          match evalRule dd df rule with
          | .error e => .error e
          | .ok res =>
              match run_validation dd rest with
              | .error e => .error e
              | .ok out => .ok (res :: out)

/-- The empty frame (used as the never-inspected default under an
`Option.isSome` guard). -/
def dfEmpty : DataFrame := ⟨[], []⟩

/-! ### Record Tracer

Modelled from the spec: `get_record_trace` is called from the Investigator
tab of app.py but its body is not part of the sources at hand; §4.3 of the
spec fixes its behaviour, which the following definitions transcribe.
The walk visits the pipeline stages that could contain the record, in
order. -/

/-- Trace step status (§3). -/
inductive StepStatus where
  | success
  | failed
  | warning
  | unknown
deriving DecidableEq, Repr

/-- One step of a trace (§3). -/
structure TraceStep where
  stage : String
  status : StepStatus
  msg : String
deriving DecidableEq, Repr

/-- A quality gate attached to a stage's outgoing edge, already evaluated
for the traced record: `fails` says whether the record's row position is in
the gate's violation set. -/
structure Gate where
  desc : String
  fails : Bool
deriving DecidableEq, Repr

/-- One pipeline stage as seen by the tracer: its label, whether the traced
record is located in the stage's dataset, and the gate (if any) on its
outgoing edge. -/
structure Stage where
  label : String
  present : Bool
  gate : Option Gate
deriving DecidableEq, Repr

/-- Default stage (for `getD`). -/
def stageDefault : Stage := ⟨"", false, none⟩

/-- Modelled from the spec: a stage blocks the record when the record is
present there and the gate on the outgoing edge fails for it (§4.3: a gate
evaluates to FAIL when the record's row position is in its violation set). -/
def Stage.blocked (s : Stage) : Bool :=
  s.present && ((s.gate.map Gate.fails).getD false)

/-- The business description of the stage's gate (empty when there is no
gate). -/
def Stage.gateDesc (s : Stage) : String :=
  (s.gate.map Gate.desc).getD ""

/-- Modelled from the spec: the step emitted at a stage that does not block
the record — SUCCESS when the record is present (and no gate fails), UNKNOWN
when it cannot be located (§4.3). -/
def stepOf (s : Stage) : TraceStep :=
  if s.present then ⟨s.label, .success, "Record located; gate passed"⟩
  else ⟨s.label, .unknown, "Record not found at this stage"⟩

/-- Modelled from the spec: walk the stages in order; a blocking stage emits
a FAILED step carrying the gate's business description and stops the walk
(the record does not propagate further downstream); any other stage emits
its SUCCESS/UNKNOWN step and the walk continues (§4.3). -/
def traceSteps : List Stage → List TraceStep
  | [] => []
  | s :: rest =>
      if s.blocked then [⟨s.label, .failed, s.gateDesc⟩]
      else stepOf s :: traceSteps rest

/-- A trace (§3). -/
structure Trace where
  record_id : String
  steps : List TraceStep
  final_status : StepStatus
deriving DecidableEq, Repr

/-- Modelled from the spec: `trace(record_id)` — the emitted steps plus a
`final_status` equal to the status of the last emitted step (§4.3). -/
def trace (record_id : String) (stages : List Stage) : Trace :=
  let steps := traceSteps stages
  ⟨record_id, steps, ((steps.getLast?).map TraceStep.status).getD .unknown⟩

/-! ### Concrete fixtures (mock_data.py and small witness frames) -/

/-- The `erp_inventory` frame of mock_data.py: SKU_999 with counts 100 → 95,
SKU_888 with counts 50 → 50. -/
def erp_inventory : DataFrame :=
  ⟨["sku", "warehouse_loc", "start_count_daily", "end_count_realtime", "last_audit"],
   [[("sku", .str "SKU_999"), ("warehouse_loc", .str "WH_NJ"),
     ("start_count_daily", .num 100), ("end_count_realtime", .num 95),
     ("last_audit", .str "2023-11-23")],
    [("sku", .str "SKU_888"), ("warehouse_loc", .str "WH_NJ"),
     ("start_count_daily", .num 50), ("end_count_realtime", .num 50),
     ("last_audit", .str "2023-11-23")]]⟩

/-- The `pos_transactions` frame of mock_data.py: three transactions, all on
SKU_999, one (TXN_LOST) with a negative amount. -/
def pos_transactions : DataFrame :=
  ⟨["txn_id", "session_id", "sku", "amount", "store_id"],
   [[("txn_id", .str "TXN_100"), ("session_id", .str "sess_5001"),
     ("sku", .str "SKU_999"), ("amount", .num 999.99), ("store_id", .str "online_01")],
    [("txn_id", .str "TXN_101"), ("session_id", .str "sess_5007"),
     ("sku", .str "SKU_999"), ("amount", .num 999.99), ("store_id", .str "online_01")],
    [("txn_id", .str "TXN_LOST"), ("session_id", .str "sess_5009"),
     ("sku", .str "SKU_999"), ("amount", .num (-500)), ("store_id", .str "online_01")]]⟩

/-- The `gold_brand_health` frame of mock_data.py: a single window with
average sentiment -0.34. -/
def gold_brand_health : DataFrame :=
  ⟨["window_time", "avg_sentiment", "cart_abandon_rate", "verified_revenue",
    "inventory_shrinkage_qty"],
   [[("window_time", .str "10:00-10:10"), ("avg_sentiment", .num (-0.34)),
     ("cart_abandon_rate", .num 0.4), ("verified_revenue", .num 1999.98),
     ("inventory_shrinkage_qty", .num 3)]]⟩

/-- The dataset store slice the claims exercise. -/
def mockDatasets : Datasets :=
  [("pos_transactions", pos_transactions),
   ("erp_inventory", erp_inventory),
   ("gold_brand_health", gold_brand_health)]

/-- A one-row frame with a single column "a" (for missing-column inputs). -/
def dfOneCol : DataFrame := ⟨["a"], [[("a", .num 1)]]⟩

/-- A one-row frame whose cell is the string "ab" (the pattern "b" occurs
inside but not at the start). -/
def dfAB : DataFrame := ⟨["c"], [[("c", .str "ab")]]⟩

/-- A one-row frame whose cell is the string "ba" (the pattern "b" matches at
the start). -/
def dfBA : DataFrame := ⟨["c"], [[("c", .str "ba")]]⟩

/-- A small numeric frame for the range / greater-than witnesses: values
0, 5, 10, 17 in column "v". -/
def dfNums : DataFrame :=
  ⟨["v"],
   [[("v", .num 0)], [("v", .num 5)], [("v", .num 10)], [("v", .num 17)]]⟩

/-- Witness stages for the tracer: the record is found at the source, is
blocked by the failing safety gate at the transform, and would otherwise
reach the target. -/
def demoStages : List Stage :=
  [⟨"Source: Social Stream (Kafka)", true, none⟩,
   ⟨"Transform: Sentiment Engine (ML)", true, some ⟨"Safety Checks (Explosions?)", true⟩⟩,
   ⟨"Target: Exec Dashboard", true, none⟩]

/-- A rule with an unrecognized expectation kind over a resolvable table. -/
def ruleBogus : Rule :=
  { id := "R_BOGUS", table := "gold_brand_health", column := some "avg_sentiment",
    expectation_type := "expect_totally_unknown_kind",
    severity := "WARNING", business_description := "unknown kind demo" }

/-- A rule whose table resolves to no dataset. -/
def ruleNoTable : Rule :=
  { id := "R_LOST", table := "no_such_table", column := some "x",
    expectation_type := "expect_column_values_to_be_greater_than",
    kwargs := { value := some (.num 0) },
    severity := "CRITICAL", business_description := "unresolvable table demo" }

/-- A sentiment-correlation rule (used to show the column field is inert). -/
def ruleSentiment : Rule :=
  { id := "R_SENT", table := "gold_brand_health", column := some "cart_abandon_rate",
    expectation_type := "expect_sentiment_abandonment_correlation",
    severity := "CRITICAL", business_description := "sentiment demo" }

/-- The result record the engine produces for `ruleBogus`. -/
def resBogus : ValidationResult :=
  { rule_id := "R_BOGUS", table := "gold_brand_health", column := "avg_sentiment",
    description := "unknown kind demo", status := "PASS", failed_count := 0,
    severity := "WARNING", failed_rows := [] }

/-- Reference computation for the skipping claim, following the spec's words:
evaluate the given rules one after the other, in order, every one of them
(no skipping); exceptions propagate. -/
def resultsInOrder (dd : Datasets) : List Rule → Except String (List ValidationResult)
  | [] => .ok []
  | rule :: rest =>
      match evalRule dd ((dd.lookup rule.table).getD dfEmpty) rule with
      | .error e => .error e
      | .ok res =>
          match resultsInOrder dd rest with
          | .error e => .error e
          | .ok out => .ok (res :: out)

/-! ### Helper lemmas -/

theorem mem_positionsFrom {α : Type} (p : α → Bool) (d : α) (l : List α) :
    ∀ n j : Nat, j ∈ positionsFrom p n l ↔
      ∃ k, k < l.length ∧ j = n + k ∧ p (l.getD k d) = true := by
  induction l with
  | nil => intro n j; simp [positionsFrom]
  | cons a as ih =>
    intro n j
    simp only [positionsFrom]
    by_cases hp : p a = true
    · rw [if_pos hp]
      simp only [List.mem_cons, ih]
      constructor
      · rintro (rfl | ⟨k, hk, rfl, hpk⟩)
        · exact ⟨0, by simp, by omega, by simpa using hp⟩
        · exact ⟨k + 1, by simp; omega, by omega, by simpa using hpk⟩
      · rintro ⟨k, hk, rfl, hpk⟩
        cases k with
        | zero => left; omega
        | succ k =>
            right
            exact ⟨k, by simp at hk; omega, by omega, by simpa using hpk⟩
    · rw [if_neg hp]
      simp only [ih]
      constructor
      · rintro ⟨k, hk, rfl, hpk⟩
        exact ⟨k + 1, by simp; omega, by omega, by simpa using hpk⟩
      · rintro ⟨k, hk, rfl, hpk⟩
        cases k with
        | zero => exact absurd (by simpa using hpk) hp
        | succ k =>
            exact ⟨k, by simp at hk; omega, by omega, by simpa using hpk⟩

theorem mem_positionsWhere {α : Type} (p : α → Bool) (d : α) (l : List α) (j : Nat) :
    j ∈ positionsWhere p l ↔ j < l.length ∧ p (l.getD j d) = true := by
  rw [positionsWhere, mem_positionsFrom p d l 0 j]
  constructor
  · rintro ⟨k, hk, rfl, hpk⟩
    exact ⟨by omega, by simpa using hpk⟩
  · rintro ⟨hj, hpj⟩
    exact ⟨j, hj, by omega, hpj⟩

theorem getD_map {α β : Type} (f : α → β) (l : List α) (d : α) :
    ∀ i : Nat, (l.map f).getD i (f d) = f (l.getD i d) := by
  induction l with
  | nil => intro i; simp
  | cons a as ih =>
    intro i
    cases i with
    | zero => simp
    | succ k => simp only [List.map_cons, List.getD_cons_succ]; exact ih k

/-- Cell of the empty row is null. -/
theorem cell_nil (c : String) : Row.cell [] c = Value.null := rfl

theorem getCol_ok {df : DataFrame} {c : String} (h : c ∈ df.cols) :
    df.getCol c = .ok (df.rows.map (fun r => r.cell c)) := by
  simp [DataFrame.getCol, h]

theorem getCol_err {df : DataFrame} {c : String} (h : c ∉ df.cols) :
    df.getCol c = .error "KeyError" := by
  simp [DataFrame.getCol, h]

theorem ltB_num_iff (v : Value) (q : ℚ) :
    v.ltB (.num q) = true ↔ ∃ a, v = .num a ∧ a < q := by
  cases v <;> simp [Value.ltB]

theorem gtB_num_iff (v : Value) (q : ℚ) :
    v.gtB (.num q) = true ↔ ∃ a, v = .num a ∧ q < a := by
  cases v <;> simp [Value.gtB]

theorem leB_num_iff (v : Value) (q : ℚ) :
    v.leB (.num q) = true ↔ ∃ a, v = .num a ∧ a ≤ q := by
  cases v <;> simp [Value.leB]

/-- A match anchored at the start is in particular a match somewhere inside
the string: the whole string is its own first suffix. -/
theorem search_of_matchStart {r : Regex} {s : List Char}
    (h : r.matchStart s = true) : r.search s = true := by
  cases s with
  | nil =>
      simp only [Regex.search, suffixesOf, List.any_cons, List.any_nil, Bool.or_false]
      exact h
  | cons c cs =>
      rw [Regex.search, suffixesOf]
      simp only [List.any_cons, Bool.or_eq_true]
      exact Or.inl h

/-- Evaluating the registry skips exactly the rules whose table resolves to
no dataset: the run equals the straight in-order evaluation of the
resolvable rules. -/
theorem run_validation_eq_filter (dd : Datasets) (rules : List Rule) :
    run_validation dd rules =
      resultsInOrder dd (rules.filter (fun r => (dd.lookup r.table).isSome)) := by
  induction rules with
  | nil => rfl
  | cons r rest ih =>
      cases h : dd.lookup r.table with
      | none => simp [run_validation, h, List.filter_cons, ih]
      | some df => simp [run_validation, h, List.filter_cons, resultsInOrder, ih]

/-- Straight in-order evaluation that returns normally produces one result
per rule. -/
theorem resultsInOrder_ok_length (dd : Datasets) :
    ∀ (l : List Rule) (out : List ValidationResult),
      resultsInOrder dd l = .ok out → out.length = l.length := by
  intro l
  induction l with
  | nil =>
      intro out h
      rw [resultsInOrder] at h
      injection h with h2
      rw [← h2]
      rfl
  | cons r rest ih =>
      intro out h
      rw [resultsInOrder] at h
      cases he : evalRule dd ((dd.lookup r.table).getD dfEmpty) r with
      | error e => rw [he] at h; exact absurd h (by simp)
      | ok res =>
          rw [he] at h
          cases hrest : resultsInOrder dd rest with
          | error e => rw [hrest] at h; exact absurd h (by simp)
          | ok o2 =>
              rw [hrest] at h
              injection h with h2
              rw [← h2]
              simpa using ih o2 hrest

/-- The resolvable and the unresolvable rules partition the registry. -/
theorem length_filter_partition (dd : Datasets) (rules : List Rule) :
    (rules.filter (fun r => (dd.lookup r.table).isSome)).length
      + (rules.filter (fun r => (dd.lookup r.table).isNone)).length = rules.length := by
  induction rules with
  | nil => simp
  | cons r rest ih => cases h : dd.lookup r.table <;> simp [List.filter_cons, h] <;> omega

/-- A non-blocking stage never emits a FAILED step. -/
theorem stepOf_status_ne_failed (s : Stage) :
    (stepOf s).status ≠ StepStatus.failed := by
  cases h : s.present <;> simp [stepOf, h]

/-- Membership in the positions of a mapped column. -/
theorem mem_positionsWhere_map {α : Type} (p : Value → Bool) (f : α → Value)
    (l : List α) (d : α) (j : Nat) :
    j ∈ positionsWhere p (l.map f) ↔ j < l.length ∧ p (f (l.getD j d)) = true := by
  rw [mem_positionsWhere p (f d), List.length_map, getD_map f l d j]

/-- Membership in the positions of a column selection, phrased on the rows. -/
theorem mem_positionsWhere_col (p : Value → Bool) (df : DataFrame) (col : String)
    (j : Nat) :
    j ∈ positionsWhere p (df.rows.map (fun r => r.cell col)) ↔
      j < df.rows.length ∧ p ((df.rows.getD j []).cell col) = true :=
  mem_positionsWhere_map p (fun r => r.cell col) df.rows [] j

/-- Behaviour of the walk on a record blocked at position `i`: the first `i`
stages each emit their non-FAILED step, the blocking stage emits the FAILED
step, and the walk stops there. -/
theorem traceSteps_blocked (stages : List Stage) :
    ∀ i : Nat, i < stages.length →
      (stages.getD i stageDefault).blocked = true →
      (∀ j, j < i → (stages.getD j stageDefault).blocked = false) →
      traceSteps stages = (stages.take i).map stepOf ++
        [⟨(stages.getD i stageDefault).label, .failed, (stages.getD i stageDefault).gateDesc⟩] := by
  induction stages with
  | nil => intro i hi hblk hfirst; simp at hi
  | cons s rest ih =>
      intro i hi hblk hfirst
      cases i with
      | zero =>
          simp only [List.getD_cons_zero] at hblk ⊢
          simp [traceSteps, hblk]
      | succ k =>
          have h0 : s.blocked = false := by simpa using hfirst 0 (Nat.succ_pos k)
          rw [traceSteps, if_neg (by simp [h0])]
          simp only [List.take_succ_cons, List.map_cons, List.getD_cons_succ, List.cons_append]
          congr 1
          exact ih k (by simpa using hi) (by simpa using hblk)
            (fun j hj => by simpa using hfirst (j + 1) (by omega))

/-! ### Claim theorems -/

/-- C1 (amended): of the six column-taking checks, only not_null treats a
missing column as vacuously passing; regex_match, regex_not_match, range,
greater_than and set_membership access the column unguarded and raise a
KeyError when it is absent. -/
theorem missing_column_only_not_null_guarded (df : DataFrame) (col : String)
    (pat : Regex) (v1 v2 v3 : Value) (vset : List Value)
    (h : col ∉ df.cols) :
    check_not_null df col = .ok [] ∧
    check_regex_match df col pat = .error "KeyError" ∧
    check_regex_not_match df col pat = .error "KeyError" ∧
    check_range df col v1 v2 = .error "KeyError" ∧
    check_greater_than df col v3 = .error "KeyError" ∧
    check_set df col vset = .error "KeyError" := by
  refine ⟨?_, ?_, ?_, ?_, ?_, ?_⟩ <;>
    simp [check_not_null, check_regex_match, check_regex_not_match, check_range,
      check_greater_than, check_set, getCol_err h, h, Except.map]

/-- C1 counterexample: the range check on a column absent from the frame
raises a KeyError instead of returning the empty violation set. -/
theorem missing_column_range_raises :
    "b" ∉ dfOneCol.cols ∧
    check_range dfOneCol "b" (Value.num 0) (Value.num 10) = .error "KeyError" ∧
    check_range dfOneCol "b" (Value.num 0) (Value.num 10) ≠ .ok [] := by
  refine ⟨by decide, by rfl, by decide⟩

/-- C2 (amended): for every dataset, column and pattern, a row that is NOT in
regex_match's violation set (its string form matches at the start) IS in
regex_not_match's violation set (the string contains a match); the converse
direction of the claimed inverse relationship fails because regex_match
anchors at the start while regex_not_match searches anywhere. -/
theorem regex_match_not_match_one_sided (df : DataFrame) (col : String)
    (pat : Regex) (m n : List Nat)
    (hm : check_regex_match df col pat = .ok m)
    (hn : check_regex_not_match df col pat = .ok n)
    (i : Nat) (hi : i < df.rows.length) (hnot : i ∉ m) : i ∈ n := by
  have hcol : col ∈ df.cols := by
    by_contra hc
    rw [check_regex_match, getCol_err hc] at hm
    exact absurd hm (by simp [Except.map])
  rw [check_regex_match, getCol_ok hcol] at hm
  rw [check_regex_not_match, getCol_ok hcol] at hn
  simp only [Except.map] at hm hn
  injection hm with hm2
  injection hn with hn2
  rw [← hn2]
  rw [← hm2] at hnot
  rw [mem_positionsWhere_col] at hnot ⊢
  have hms : pat.matchStart (((df.rows.getD i []).cell col).toStr.toList) = true := by
    by_contra hq
    exact hnot ⟨hi, by simp [Bool.not_eq_true] at hq; simp [hq]⟩
  exact ⟨hi, search_of_matchStart hms⟩

/-- C2 counterexample: on the value "ab" and the pattern "b" (which occurs
inside the string but not at its start), the row is in BOTH violation sets,
refuting the claimed iff. -/
theorem regex_match_not_match_both_violated :
    check_regex_match dfAB "c" (Regex.ch 'b') = .ok [0] ∧
    check_regex_not_match dfAB "c" (Regex.ch 'b') = .ok [0] ∧
    ¬ (((0 : Nat) ∈ ([0] : List Nat)) ↔ ((0 : Nat) ∉ ([0] : List Nat))) := by
  refine ⟨by rfl, by rfl, by decide⟩

/-- C3: the inventory reconciliation flags exactly the inventory rows whose
end count differs from start count minus the number of transaction rows
sharing the row's key (0 when the key has no transactions; exact equality,
no tolerance). -/
theorem inventory_reconciliation_characterization (dd : Datasets)
    (pos_df df : DataFrame)
    (hpos : dd.lookup "pos_transactions" = some pos_df)
    (hc : "sku" ∈ pos_df.cols ∧ "sku" ∈ df.cols ∧ "start_count_daily" ∈ df.cols ∧
      "end_count_realtime" ∈ df.cols) :
    ∃ l, check_inventory_calculation dd df = .ok l ∧
      ∀ i : Nat, ∀ s e : ℚ, i < df.rows.length →
        (df.rows.getD i []).cell "sku" ≠ Value.null →
        (df.rows.getD i []).cell "start_count_daily" = .num s →
        (df.rows.getD i []).cell "end_count_realtime" = .num e →
        (i ∈ l ↔ e ≠ s - ((pos_df.rows.filter
            (fun t => t.cell "sku" = (df.rows.getD i []).cell "sku")).length : ℚ)) := by
  refine ⟨positionsWhere (invViolation pos_df) df.rows, ?_, ?_⟩
  · simp only [check_inventory_calculation, hpos]
    rw [if_pos hc]
  · intro i s e hi hkey hs he
    rw [mem_positionsWhere (invViolation pos_df) ([] : Row) df.rows i]
    have h1 : (df.rows.getD i []).cellFilled "start_count_daily" = .num s := by
      rw [Row.cellFilled, hs]
    have h2 : (df.rows.getD i []).cellFilled "end_count_realtime" = .num e := by
      rw [Row.cellFilled, he]
    have hrow : invViolation pos_df (df.rows.getD i []) = true ↔
        e ≠ s - soldQty pos_df ((df.rows.getD i []).cell "sku") := by
      rw [invViolation, h1, h2]
      simp
    rw [hrow, soldQty, if_neg hkey]
    simp [hi]

/-- C5: a rule over a resolvable table whose expectation kind is none of the
six recognized tags is not an error: the dispatch falls through with no
failed rows, and the run records a PASS result with failed_count 0 for it. -/
theorem unknown_kind_passes (dd : Datasets) (rule : Rule) (df : DataFrame)
    (hdf : dd.lookup rule.table = some df)
    (hk : rule.expectation_type ∉ recognizedKinds) :
    ∃ res : ValidationResult,
      run_validation dd [rule] = .ok [res] ∧ evalRule dd df rule = .ok res ∧
      res.status = "PASS" ∧ res.failed_count = 0 ∧ res.failed_rows = [] ∧
      res.rule_id = rule.id := by
  simp only [recognizedKinds, List.mem_cons, List.not_mem_nil, or_false, not_or] at hk
  obtain ⟨h1, h2, h3, h4, h5, h6⟩ := hk
  have hd : dispatchCheck dd df rule = .ok [] := by
    simp [dispatchCheck, h1, h2, h3, h4, h5, h6]
  refine ⟨{ rule_id := rule.id, table := rule.table,
            column := match rule.column with
              | some c => if c = "" then "Multi-Column" else c
              | none => "Multi-Column",
            description := rule.business_description, status := "PASS",
            failed_count := 0, severity := rule.severity, failed_rows := [] },
          ?_, ?_, rfl, rfl, rfl, rfl⟩
  · simp [run_validation, hdf, evalRule, hd]
  · simp [evalRule, hd]

/-- C6: a rule whose table resolves to no dataset contributes no result: the
run equals the in-order evaluation of the resolvable rules only, and with
exactly one unresolvable rule a registry of N rules yields N-1 results. -/
theorem unresolvable_table_skipped (dd : Datasets) (rules : List Rule)
    (res : List ValidationResult)
    (hone : (rules.filter (fun r => (dd.lookup r.table).isNone)).length = 1)
    (hok : run_validation dd rules = .ok res) :
    res.length + 1 = rules.length ∧
    run_validation dd rules =
      resultsInOrder dd (rules.filter (fun r => (dd.lookup r.table).isSome)) := by
  have heq := run_validation_eq_filter dd rules
  refine ⟨?_, heq⟩
  have hlen := resultsInOrder_ok_length dd
    (rules.filter (fun r => (dd.lookup r.table).isSome)) res (by rw [← heq]; exact hok)
  have hpart := length_filter_partition dd rules
  omega

/-- C7: the range check flags exactly the rows whose value is strictly below
min or strictly above max; with ordered bounds, a row whose value equals min
or equals max is NOT flagged (boundary-inclusive pass). -/
theorem range_check_boundary_inclusive (df : DataFrame) (col : String)
    (lo hi : ℚ) (hcol : col ∈ df.cols) :
    ∃ l, check_range df col (.num lo) (.num hi) = .ok l ∧
      (∀ i : Nat, i ∈ l ↔ i < df.rows.length ∧
        ∃ q : ℚ, (df.rows.getD i []).cell col = .num q ∧ (q < lo ∨ hi < q)) ∧
      (lo ≤ hi → ∀ i : Nat,
        ((df.rows.getD i []).cell col = .num lo ∨
          (df.rows.getD i []).cell col = .num hi) → i ∉ l) := by
  have hchar : ∀ i : Nat,
      i ∈ positionsWhere (fun v => v.ltB (.num lo) || v.gtB (.num hi))
          (df.rows.map (fun r => r.cell col)) ↔
        i < df.rows.length ∧
        ∃ q : ℚ, (df.rows.getD i []).cell col = .num q ∧ (q < lo ∨ hi < q) := by
    intro i
    rw [mem_positionsWhere_col]
    simp only [Bool.or_eq_true, ltB_num_iff, gtB_num_iff]
    constructor
    · rintro ⟨hlen, ⟨a, ha, hq⟩ | ⟨a, ha, hq⟩⟩
      · exact ⟨hlen, a, ha, Or.inl hq⟩
      · exact ⟨hlen, a, ha, Or.inr hq⟩
    · rintro ⟨hlen, a, ha, hq | hq⟩
      · exact ⟨hlen, Or.inl ⟨a, ha, hq⟩⟩
      · exact ⟨hlen, Or.inr ⟨a, ha, hq⟩⟩
  refine ⟨_, by rw [check_range, getCol_ok hcol]; rfl, hchar, ?_⟩
  intro hb i hcell hmem
  rw [hchar i] at hmem
  obtain ⟨hlen, a, ha, hq⟩ := hmem
  rcases hcell with h | h <;> rw [h] at ha <;> injection ha with ha2 <;>
    rcases hq with hq | hq <;> rw [← ha2] at hq <;> linarith

/-- C8: the greater_than check flags exactly the rows whose value is less
than or equal to the threshold; a row whose value equals the threshold IS a
violation (strict inequality required to pass). -/
theorem greater_than_strict (df : DataFrame) (col : String) (v : ℚ)
    (hcol : col ∈ df.cols) :
    ∃ l, check_greater_than df col (.num v) = .ok l ∧
      (∀ i : Nat, i ∈ l ↔ i < df.rows.length ∧
        ∃ q : ℚ, (df.rows.getD i []).cell col = .num q ∧ q ≤ v) ∧
      (∀ i : Nat, i < df.rows.length →
        (df.rows.getD i []).cell col = .num v → i ∈ l) := by
  have hchar : ∀ i : Nat,
      i ∈ positionsWhere (fun x => x.leB (.num v))
          (df.rows.map (fun r => r.cell col)) ↔
        i < df.rows.length ∧
        ∃ q : ℚ, (df.rows.getD i []).cell col = .num q ∧ q ≤ v := by
    intro i
    rw [mem_positionsWhere_col]
    simp only [leB_num_iff]
  refine ⟨_, by rw [check_greater_than, getCol_ok hcol]; rfl, hchar, ?_⟩
  intro i hlen hcell
  exact (hchar i).mpr ⟨hlen, v, hcell, le_refl v⟩

/-- C9: the sentiment check flags exactly the rows whose avg_sentiment value
is strictly less than -0.2; a row whose value equals -0.2 is not flagged. -/
theorem sentiment_threshold (df : DataFrame)
    (hcol : "avg_sentiment" ∈ df.cols) :
    ∃ l, check_sentiment_correlation df = .ok l ∧
      ∀ i : Nat, i ∈ l ↔ i < df.rows.length ∧
        ∃ q : ℚ, (df.rows.getD i []).cell "avg_sentiment" = .num q ∧ q < -0.2 := by
  refine ⟨_, by rw [check_sentiment_correlation, getCol_ok hcol]; rfl, ?_⟩
  intro i
  rw [mem_positionsWhere_col]
  simp only [ltB_num_iff]

/-- C10: two rules that both dispatch to the sentiment check and differ only
in their column field produce the same failed rows, status and failed count:
the check reads the fixed avg_sentiment column and ignores the rule's
column parameter. -/
theorem sentiment_column_inert (dd : Datasets) (df : DataFrame) (r : Rule)
    (c1 c2 : Option String)
    (hk : r.expectation_type = "expect_sentiment_abandonment_correlation") :
    (evalRule dd df { r with column := c1 }).map ValidationResult.failed_rows =
      (evalRule dd df { r with column := c2 }).map ValidationResult.failed_rows ∧
    (evalRule dd df { r with column := c1 }).map ValidationResult.status =
      (evalRule dd df { r with column := c2 }).map ValidationResult.status ∧
    (evalRule dd df { r with column := c1 }).map ValidationResult.failed_count =
      (evalRule dd df { r with column := c2 }).map ValidationResult.failed_count := by
  have hd : ∀ c : Option String,
      dispatchCheck dd df { r with column := c } = check_sentiment_correlation df := by
    intro c
    simp [dispatchCheck, hk]
  cases hs : check_sentiment_correlation df with
  | error e => simp [evalRule, hd, hs, Except.map]
  | ok rows => simp [evalRule, hd, hs, Except.map]

/-- C4: for a record blocked by a failing quality gate at stage `i` (the
first blocking stage), the trace has exactly one FAILED step, that step is
the last one and sits at the blocking stage with the gate's description,
nothing is emitted for stages strictly downstream (so no SUCCESS steps
there), and the final status reflects the failure. -/
theorem trace_blocked_record (rid : String) (stages : List Stage) (i : Nat)
    (hi : i < stages.length)
    (hblk : (stages.getD i stageDefault).blocked = true)
    (hfirst : ∀ j, j < i → (stages.getD j stageDefault).blocked = false) :
    (Gov.trace rid stages).steps.countP
        (fun st => decide (st.status = StepStatus.failed)) = 1 ∧
    (Gov.trace rid stages).steps.getLast? = some
      ⟨(stages.getD i stageDefault).label, .failed,
        (stages.getD i stageDefault).gateDesc⟩ ∧
    (Gov.trace rid stages).steps.length = i + 1 ∧
    (Gov.trace rid stages).final_status = .failed := by
  have hsteps : (Gov.trace rid stages).steps =
      (stages.take i).map stepOf ++
        [⟨(stages.getD i stageDefault).label, .failed,
          (stages.getD i stageDefault).gateDesc⟩] := by
    simp only [Gov.trace]
    exact traceSteps_blocked stages i hi hblk hfirst
  have hlast : (Gov.trace rid stages).steps.getLast? = some
      ⟨(stages.getD i stageDefault).label, .failed,
        (stages.getD i stageDefault).gateDesc⟩ := by
    rw [hsteps, List.getLast?_concat]
  refine ⟨?_, hlast, ?_, ?_⟩
  · rw [hsteps, List.countP_append]
    have hpre : ((stages.take i).map stepOf).countP
        (fun st => decide (st.status = StepStatus.failed)) = 0 := by
      rw [List.countP_eq_zero]
      intro st hst
      obtain ⟨s, _, rfl⟩ := List.mem_map.mp hst
      simpa using stepOf_status_ne_failed s
    rw [hpre]
    simp
  · rw [hsteps]
    simp only [List.length_append, List.length_map, List.length_take,
      List.length_singleton]
    omega
  · have : (Gov.trace rid stages).final_status =
        (((Gov.trace rid stages).steps.getLast?).map TraceStep.status).getD
          StepStatus.unknown := by
      simp [Gov.trace]
    rw [this, hlast]
    rfl

/-! ### Witnesses -/

/-- Witness for C1 (amended), at a concrete frame without column "b". -/
theorem missing_column_only_not_null_guarded_witness :
    ("b" ∉ dfOneCol.cols) ∧
    check_not_null dfOneCol "b" = .ok [] ∧
    check_greater_than dfOneCol "b" (Value.num 0) = .error "KeyError" := by
  have h := missing_column_only_not_null_guarded dfOneCol "b" (Regex.ch 'a')
    (Value.num 0) (Value.num 10) (Value.num 0) [] (by decide)
  exact ⟨by decide, h.1, h.2.2.2.2.1⟩

/-- Witness for C2 (amended): "ba" matches "b" at the start, so it is absent
from regex_match's violations and present in regex_not_match's. -/
theorem regex_match_not_match_one_sided_witness :
    check_regex_match dfBA "c" (Regex.ch 'b') = .ok [] ∧
    check_regex_not_match dfBA "c" (Regex.ch 'b') = .ok [0] ∧
    (0 : Nat) ∈ ([0] : List Nat) :=
  ⟨rfl, rfl,
    regex_match_not_match_one_sided dfBA "c" (Regex.ch 'b') [] [0] rfl rfl 0
      (by decide) (by decide)⟩

/-- Witness for C3 at the mock fixture: SKU_999 (100 start, 95 end, 3
transactions) is flagged; SKU_888 (50, 50, no transactions) is not. -/
theorem inventory_reconciliation_fixture :
    ∃ l, check_inventory_calculation mockDatasets erp_inventory = .ok l ∧
      (0 ∈ l ↔ (95 : ℚ) ≠ 100 - 3) ∧ (1 ∈ l ↔ (50 : ℚ) ≠ 50 - 0) := by
  obtain ⟨l, hok, hiff⟩ := inventory_reconciliation_characterization mockDatasets
    pos_transactions erp_inventory rfl (by decide)
  refine ⟨l, hok, ?_, ?_⟩
  · have hcount : (pos_transactions.rows.filter
        (fun t => t.cell "sku" = (erp_inventory.rows.getD 0 []).cell "sku")).length
          = 3 := by decide
    have h := hiff 0 100 95 (by decide) (by decide) rfl rfl
    rw [hcount] at h
    simpa using h
  · have hcount : (pos_transactions.rows.filter
        (fun t => t.cell "sku" = (erp_inventory.rows.getD 1 []).cell "sku")).length
          = 0 := by decide
    have h := hiff 1 50 50 (by decide) (by decide) rfl rfl
    rw [hcount] at h
    simpa using h

/-- Witness for C4, on a three-stage walk blocked at stage 1. -/
theorem trace_blocked_record_witness :
    ((1 < demoStages.length) ∧ (demoStages.getD 1 stageDefault).blocked = true) ∧
    (Gov.trace "TXN_LOST" demoStages).final_status = StepStatus.failed ∧
    (Gov.trace "TXN_LOST" demoStages).steps.length = 2 := by
  have h := trace_blocked_record "TXN_LOST" demoStages 1 (by decide) (by decide)
    (fun j hj => by
      have hj0 : j = 0 := by omega
      rw [hj0]
      decide)
  exact ⟨⟨by decide, by decide⟩, h.2.2.2, h.2.2.1⟩

/-- Witness for C5, at a rule with kind "expect_totally_unknown_kind". -/
theorem unknown_kind_passes_witness :
    (mockDatasets.lookup ruleBogus.table = some gold_brand_health ∧
      ruleBogus.expectation_type ∉ recognizedKinds) ∧
    ∃ res, run_validation mockDatasets [ruleBogus] = .ok [res] ∧
      res.status = "PASS" ∧ res.failed_count = 0 := by
  have h := unknown_kind_passes mockDatasets ruleBogus gold_brand_health rfl (by decide)
  obtain ⟨res, h1, h2, h3, h4, h5, h6⟩ := h
  exact ⟨⟨rfl, by decide⟩, res, h1, h3, h4⟩

/-- Witness for C6: two rules, one over an unresolvable table, yield one
result. -/
theorem unresolvable_table_skipped_witness :
    (([ruleBogus, ruleNoTable].filter
        (fun r => (mockDatasets.lookup r.table).isNone)).length = 1) ∧
    [resBogus].length + 1 = [ruleBogus, ruleNoTable].length := by
  have h := unresolvable_table_skipped mockDatasets [ruleBogus, ruleNoTable] [resBogus]
    (by decide) (by decide)
  exact ⟨by decide, h.1⟩

/-- Witness for C7 on a concrete frame with bounds 0..10: the value 17 is
flagged, the boundary value 0 is not. -/
theorem range_check_boundary_inclusive_witness :
    ("v" ∈ dfNums.cols) ∧
    ∃ l, check_range dfNums "v" (.num 0) (.num 10) = .ok l ∧ 3 ∈ l ∧ 0 ∉ l := by
  obtain ⟨l, hok, hchar, hbound⟩ :=
    range_check_boundary_inclusive dfNums "v" 0 10 (by decide)
  refine ⟨by decide, l, hok, ?_, ?_⟩
  · exact (hchar 3).mpr ⟨by decide, 17, rfl, Or.inr (by norm_num)⟩
  · exact hbound (by norm_num) 0 (Or.inl rfl)

/-- Witness for C8 on a concrete frame with threshold 5: the row whose value
equals 5 is flagged; the value 17 is not. -/
theorem greater_than_strict_witness :
    ("v" ∈ dfNums.cols) ∧
    ∃ l, check_greater_than dfNums "v" (.num 5) = .ok l ∧ 1 ∈ l ∧ 3 ∉ l := by
  obtain ⟨l, hok, hchar, heq⟩ := greater_than_strict dfNums "v" 5 (by decide)
  refine ⟨by decide, l, hok, heq 1 (by decide) rfl, ?_⟩
  intro hmem
  obtain ⟨h3, q, hq, hle⟩ := (hchar 3).mp hmem
  have h17 : (dfNums.rows.getD 3 []).cell "v" = Value.num 17 := rfl
  rw [h17] at hq
  injection hq with hq2
  rw [← hq2] at hle
  norm_num at hle

/-- Witness for C9 at the gold_brand_health fixture: -0.34 is below -0.2 and
is flagged. -/
theorem sentiment_threshold_witness :
    ("avg_sentiment" ∈ gold_brand_health.cols) ∧
    ∃ l, check_sentiment_correlation gold_brand_health = .ok l ∧ 0 ∈ l := by
  obtain ⟨l, hok, hchar⟩ := sentiment_threshold gold_brand_health (by decide)
  exact ⟨by decide, l, hok, (hchar 0).mpr ⟨by decide, -0.34, rfl, by norm_num⟩⟩

/-- Witness for C10: the sentiment rule with two different column fields
yields the same failed rows. -/
theorem sentiment_column_inert_witness :
    (ruleSentiment.expectation_type = "expect_sentiment_abandonment_correlation") ∧
    (evalRule mockDatasets gold_brand_health
        { ruleSentiment with column := some "a" }).map ValidationResult.failed_rows =
      (evalRule mockDatasets gold_brand_health
        { ruleSentiment with column := some "b" }).map ValidationResult.failed_rows :=
  ⟨rfl, (sentiment_column_inert mockDatasets gold_brand_health ruleSentiment
      (some "a") (some "b") rfl).1⟩

end Gov
